import Mathlib

set_option maxHeartbeats 2000000

/-!
Shallow embedding of the kubernetes-mcp server (`src/index.ts`).

The repository exposes ~50 Kubernetes management tools over MCP.  Each tool
call is dispatched by `handleTool` (lines 751-1233 of the source) to exactly
one invocation of `runKubectl` (lines 29-128), which either runs the kubectl
binary locally or wraps the argument list into a shell command executed over
ssh.  The definitions below transliterate the argument construction, the
execution-path selection, the exit-status checks and the secret-decoding
logic of the source; process spawning itself is abstracted as an oracle from
an invocation to a captured result.
-/

/-- Result of one external-process run: captured stdout, captured stderr and
the exit status (`KubectlResult` interface, source lines 22-26). -/
structure KubectlResult where
  stdout : String
  stderr : String
  code : Int
deriving DecidableEq

/-- JavaScript string truthiness: a string is truthy iff it is nonempty. -/
def strTruthy (s : String) : Bool := s != ""

/-- JavaScript truthiness of an optional string argument (`undefined` and the
empty string are falsy). -/
def optTruthy (o : Option String) : Bool := strTruthy (o.getD "")

/-- JavaScript truthiness of an optional numeric argument (`undefined` and 0
are falsy). -/
def numTruthy (o : Option Int) : Bool := o.getD 0 != 0

/-- The single-quote character (codepoint 39). -/
def squote : Char := Char.ofNat 39

/-- The double-quote character (codepoint 34). -/
def dquote : Char := Char.ofNat 34

/-- The space character (codepoint 32). -/
def spaceChar : Char := Char.ofNat 32

/-- JavaScript `String.prototype.includes` for a one-character needle,
modelled over the character list. -/
def containsChar (s : String) (c : Char) : Bool := s.data.contains c

/-- JavaScript global replace of one character by a string
(`arg.replace(/x/g, rep)`), modelled over the character list. -/
def replaceChar (s : String) (c : Char) (rep : String) : String :=
  ⟨s.data.flatMap (fun ch => if ch = c then rep.data else [ch])⟩

/-- JavaScript `String.prototype.split` with a one-character separator:
every occurrence of the separator starts a new token, consecutive separators
produce empty tokens, and no quoting is interpreted.  The empty string
splits to one empty token, as in JavaScript. -/
def splitOnChar (sep : Char) (s : String) : List String :=
  (s.data.foldr
    (fun c acc =>
      match acc with
      | [] => [[c]]
      | g :: gs => if c = sep then [] :: g :: gs else (c :: g) :: gs)
    [[]]).map (fun g => ⟨g⟩)

/-- Environment configuration read at startup (source lines 10-20), plus the
host-platform flag consulted for password authentication (line 59).  An empty
string models an unset variable, matching the source's `|| ""` defaults. -/
structure Env where
  KUBECONFIG : String := ""
  K8S_CONTEXT : String := ""
  K8S_DEFAULT_NAMESPACE : String := "default"
  KUBECTL_PATH : String := "kubectl"
  K8S_SSH_HOST : String := ""
  K8S_SSH_USER : String := ""
  K8S_SSH_PASSWORD : String := ""
  K8S_SSH_KEY : String := ""
  isWindows : Bool := false
deriving DecidableEq

/-- Shell escaping applied to each argument before joining in remote mode
(source lines 37-43): an argument containing a single quote or a space is
wrapped in double quotes with embedded double quotes backslash-escaped;
any other argument is passed through unchanged. -/
def escapeArg (arg : String) : String :=
  if containsChar arg squote || containsChar arg spaceChar then
    "\x22" ++ replaceChar arg dquote "\\\x22" ++ "\x22"
  else arg

/-- The single shell command string run on the remote host (source line 44):
the elevation prefix `sudo`, the client name `kubectl`, then the escaped
arguments joined by spaces. -/
def kubectlCmd (args : List String) : String :=
  "sudo kubectl " ++ String.intercalate " " (args.map escapeArg)

/-- The process actually spawned: an executable name and its argument
vector. -/
structure SpawnCall where
  command : String
  spawnArgs : List String
deriving DecidableEq

/-- The `user@host` ssh destination (source lines 54, 66, 77, 85). -/
def sshTarget (env : Env) : String := env.K8S_SSH_USER ++ "@" ++ env.K8S_SSH_HOST

/-- Selection of the spawned process in `runKubectl` (source lines 31-100).
Remote mode (nonempty `K8S_SSH_HOST`) wraps the argument list into
`kubectlCmd` and runs it through ssh (key auth preferred), plink or sshpass
(password auth, chosen by platform), or plain ssh.  Local mode runs the
configured kubectl binary directly, prepending (`unshift`) the kubeconfig
flag and then the context flag when the corresponding value is set. -/
def buildSpawn (env : Env) (args : List String) : SpawnCall :=
  if strTruthy env.K8S_SSH_HOST then
    let cmd := kubectlCmd args
    if strTruthy env.K8S_SSH_KEY then
      ⟨"ssh", ["-i", env.K8S_SSH_KEY,
               "-o", "StrictHostKeyChecking=no",
               "-o", "UserKnownHostsFile=/dev/null",
               "-o", "BatchMode=yes",
               sshTarget env, cmd]⟩
    else if strTruthy env.K8S_SSH_PASSWORD then
      if env.isWindows then
        ⟨"plink", ["-batch", "-pw", env.K8S_SSH_PASSWORD, sshTarget env, cmd]⟩
      else
        ⟨"sshpass", ["-p", env.K8S_SSH_PASSWORD, "ssh",
                     "-o", "StrictHostKeyChecking=no",
                     "-o", "UserKnownHostsFile=/dev/null",
                     sshTarget env, cmd]⟩
    else
      ⟨"ssh", ["-o", "StrictHostKeyChecking=no", sshTarget env, cmd]⟩
  else
    let spawnArgs := args
    let spawnArgs := if strTruthy env.KUBECONFIG
      then ("--kubeconfig=" ++ env.KUBECONFIG) :: spawnArgs else spawnArgs
    let spawnArgs := if strTruthy env.K8S_CONTEXT
      then ("--context=" ++ env.K8S_CONTEXT) :: spawnArgs else spawnArgs
    ⟨env.KUBECTL_PATH, spawnArgs⟩

/-- Terminal event of the spawned process: either the `close` event with an
exit code (`null` when the process was killed by a signal), or the `error`
event carrying a spawn-failure message. -/
inductive ProcEvent where
  | close (code : Option Int)
  | spawnErr (msg : String)
deriving DecidableEq

/-- How `runKubectl` resolves its promise (source lines 120-126): on `close`
it returns the accumulated stdout/stderr and `code || 0`; on a spawn `error`
it resolves (never rejects) with empty stdout, the error message as stderr,
and exit code 1.  The function is total: every event yields a result. -/
def resolveOutcome (stdout stderr : String) : ProcEvent → KubectlResult
  | .close code => ⟨stdout, stderr, code.getD 0⟩
  | .spawnErr msg => ⟨"", msg, 1⟩

/-- Namespace resolution helper (source lines 131-133):
`namespace || K8S_DEFAULT_NAMESPACE`. -/
def getNamespace (o : Option String) (defaultNamespace : String) : String :=
  if optTruthy o then o.getD "" else defaultNamespace

/-- Counted variant of `getNamespace`, threading the number of resolutions
performed; used to state that `handleTool` resolves the namespace exactly
once per call (the single call site at source line 752). -/
def countedGetNamespace (o : Option String) (defaultNamespace : String) (calls : Nat) :
    String × Nat :=
  (getNamespace o defaultNamespace, calls + 1)

/-- The argument mapping of one tool call.  Fields mirror the argument names
of the tool schemas (source lines 151-748); `none` / `false` model an absent
JSON field.  The JavaScript `namespace` key is called `namespaceArg` here
because `namespace` is a Lean keyword; `type` (of `k8s_create_secret`) is
called `secretType`. -/
structure ToolArgs where
  namespaceArg : Option String := none
  all_namespaces : Bool := false
  label_selector : Option String := none
  name : String := ""
  container : Option String := none
  command : String := ""
  tail : Option Int := none
  previous : Bool := false
  since : Option String := none
  force : Bool := false
  decode : Bool := false
  data : List (String × String) := []
  secretType : Option String := none
  manifest : String := ""
  resource_type : String := ""
  image : String := ""
  replicas : Int := 0
  revision : Option Int := none
  dry_run : Bool := false
deriving DecidableEq

/-- One planned `runKubectl` invocation: the kubectl argument list and the
optional stdin text (only `k8s_apply_manifest` feeds stdin). -/
structure Invocation where
  args : List String
  stdin : Option String := none
deriving DecidableEq

/-- JavaScript template interpolation of a possibly-absent string value
(interpolating `undefined` yields the text "undefined"). -/
def jstr (o : Option String) : String := o.getD "undefined"

/-- Namespace scoping shared by the list-style branches: the all-namespaces
flag when `all_namespaces` is truthy, otherwise `-n` with the resolved
namespace. -/
def nsOrAll (allNs : Bool) (ns : String) : List String :=
  if allNs then ["--all-namespaces"] else ["-n", ns]

/-- Label-selector suffix of the `k8s_list_pods` branch (source lines
816-818). -/
def labelArgs (args : ToolArgs) : List String :=
  if optTruthy args.label_selector then ["-l", args.label_selector.getD ""] else []

/-- The `--from-literal=key=value` arguments built from a data mapping
(source lines 1002-1004 and 1051-1053). -/
def fromLiteralArgs (data : List (String × String)) : List String :=
  data.map (fun kv => "--from-literal=" ++ kv.1 ++ "=" ++ kv.2)

/-- Argument-list construction of every `handleTool` branch (source lines
754-1232), with the namespace already resolved to `ns` (source line 752).
Returns `none` exactly on the switch's `default` case (unknown tool name),
which constructs no invocation. -/
def buildKubectlArgs (name : String) (args : ToolArgs) (ns : String) :
    Option Invocation :=
  match name with
  | "k8s_get_cluster_info" => some ⟨["cluster-info"], none⟩
  | "k8s_list_nodes" => some ⟨["get", "nodes", "-o", "wide"], none⟩
  | "k8s_get_node" => some ⟨["get", "node", args.name, "-o", "json"], none⟩
  | "k8s_describe_node" => some ⟨["describe", "node", args.name], none⟩
  | "k8s_list_namespaces" => some ⟨["get", "namespaces", "-o", "wide"], none⟩
  | "k8s_create_namespace" => some ⟨["create", "namespace", args.name], none⟩
  | "k8s_delete_namespace" => some ⟨["delete", "namespace", args.name], none⟩
  | "k8s_list_pods" =>
      some ⟨["get", "pods", "-o", "wide"] ++ nsOrAll args.all_namespaces ns
              ++ labelArgs args, none⟩
  | "k8s_get_pod" => some ⟨["get", "pod", args.name, "-n", ns, "-o", "json"], none⟩
  | "k8s_describe_pod" => some ⟨["describe", "pod", args.name, "-n", ns], none⟩
  | "k8s_get_pod_logs" =>
      some ⟨["logs", args.name, "-n", ns]
              ++ (if optTruthy args.container then ["-c", args.container.getD ""] else [])
              ++ (if args.previous then ["--previous"] else [])
              ++ (if numTruthy args.tail then ["--tail", toString (args.tail.getD 0)] else [])
              ++ (if optTruthy args.since then ["--since", args.since.getD ""] else []), none⟩
  | "k8s_delete_pod" =>
      some ⟨["delete", "pod", args.name, "-n", ns]
              ++ (if args.force then ["--force", "--grace-period=0"] else []), none⟩
  | "k8s_exec_pod" =>
      some ⟨["exec", args.name, "-n", ns]
              ++ (if optTruthy args.container then ["-c", args.container.getD ""] else [])
              ++ ["--"] ++ splitOnChar spaceChar args.command, none⟩
  | "k8s_list_deployments" =>
      some ⟨["get", "deployments", "-o", "wide"] ++ nsOrAll args.all_namespaces ns, none⟩
  | "k8s_get_deployment" =>
      some ⟨["get", "deployment", args.name, "-n", ns, "-o", "json"], none⟩
  | "k8s_describe_deployment" =>
      some ⟨["describe", "deployment", args.name, "-n", ns], none⟩
  | "k8s_scale_deployment" =>
      some ⟨["scale", "deployment", args.name, "-n", ns,
             "--replicas=" ++ toString args.replicas], none⟩
  | "k8s_restart_deployment" =>
      some ⟨["rollout", "restart", "deployment", args.name, "-n", ns], none⟩
  | "k8s_update_deployment_image" =>
      some ⟨["set", "image", "deployment/" ++ args.name,
             jstr args.container ++ "=" ++ args.image, "-n", ns], none⟩
  | "k8s_list_services" =>
      some ⟨["get", "services", "-o", "wide"] ++ nsOrAll args.all_namespaces ns, none⟩
  | "k8s_get_service" =>
      some ⟨["get", "service", args.name, "-n", ns, "-o", "json"], none⟩
  | "k8s_describe_service" =>
      some ⟨["describe", "service", args.name, "-n", ns], none⟩
  | "k8s_list_configmaps" =>
      some ⟨["get", "configmaps"] ++ nsOrAll args.all_namespaces ns, none⟩
  | "k8s_get_configmap" =>
      some ⟨["get", "configmap", args.name, "-n", ns, "-o", "json"], none⟩
  | "k8s_create_configmap" =>
      some ⟨["create", "configmap", args.name, "-n", ns] ++ fromLiteralArgs args.data, none⟩
  | "k8s_delete_configmap" =>
      some ⟨["delete", "configmap", args.name, "-n", ns], none⟩
  | "k8s_list_secrets" =>
      some ⟨["get", "secrets"] ++ nsOrAll args.all_namespaces ns, none⟩
  | "k8s_get_secret" =>
      some ⟨["get", "secret", args.name, "-n", ns, "-o", "json"], none⟩
  | "k8s_create_secret" =>
      some ⟨["create", "secret",
             (if optTruthy args.secretType then args.secretType.getD "" else "generic"),
             args.name, "-n", ns] ++ fromLiteralArgs args.data, none⟩
  | "k8s_delete_secret" =>
      some ⟨["delete", "secret", args.name, "-n", ns], none⟩
  | "k8s_list_statefulsets" =>
      some ⟨["get", "statefulsets", "-o", "wide"] ++ nsOrAll args.all_namespaces ns, none⟩
  | "k8s_get_statefulset" =>
      some ⟨["get", "statefulset", args.name, "-n", ns, "-o", "json"], none⟩
  | "k8s_scale_statefulset" =>
      some ⟨["scale", "statefulset", args.name, "-n", ns,
             "--replicas=" ++ toString args.replicas], none⟩
  | "k8s_list_daemonsets" =>
      some ⟨["get", "daemonsets", "-o", "wide"] ++ nsOrAll args.all_namespaces ns, none⟩
  | "k8s_get_daemonset" =>
      some ⟨["get", "daemonset", args.name, "-n", ns, "-o", "json"], none⟩
  | "k8s_list_ingresses" =>
      some ⟨["get", "ingress", "-o", "wide"] ++ nsOrAll args.all_namespaces ns, none⟩
  | "k8s_get_ingress" =>
      some ⟨["get", "ingress", args.name, "-n", ns, "-o", "json"], none⟩
  | "k8s_apply_manifest" =>
      some ⟨["apply", "-f", "-"]
              ++ (if optTruthy args.namespaceArg then ["-n", ns] else [])
              ++ (if args.dry_run then ["--dry-run=client"] else []),
            some args.manifest⟩
  | "k8s_delete_resource" =>
      some ⟨["delete", args.resource_type, args.name, "-n", ns]
              ++ (if args.force then ["--force", "--grace-period=0"] else []), none⟩
  | "k8s_get_events" =>
      some ⟨["get", "events", "--sort-by=.lastTimestamp"] ++ nsOrAll args.all_namespaces ns,
            none⟩
  | "k8s_get_resource_yaml" =>
      some ⟨["get", args.resource_type, args.name, "-n", ns, "-o", "yaml"], none⟩
  | "k8s_get_all" => some ⟨["get", "all", "-n", ns, "-o", "wide"], none⟩
  | "k8s_rollout_status" =>
      some ⟨["rollout", "status", "deployment", args.name, "-n", ns], none⟩
  | "k8s_rollout_history" =>
      some ⟨["rollout", "history", "deployment", args.name, "-n", ns], none⟩
  | "k8s_rollout_undo" =>
      some ⟨["rollout", "undo", "deployment", args.name, "-n", ns]
              ++ (if numTruthy args.revision
                  then ["--to-revision=" ++ toString (args.revision.getD 0)] else []), none⟩
  | "k8s_top_nodes" => some ⟨["top", "nodes"], none⟩
  | "k8s_top_pods" => some ⟨["top", "pods"] ++ nsOrAll args.all_namespaces ns, none⟩
  | "k8s_get_contexts" => some ⟨["config", "get-contexts"], none⟩
  | "k8s_current_context" => some ⟨["config", "current-context"], none⟩
  | _ => none

/-- Outcome of one dispatched branch: an exception thrown (`throw new Error`),
a returned text, or a success path that parses stdout as JSON and returns a
re-serialized projection of it (the projection itself is not modelled; no
claim concerns those texts, only that the branch did not throw). -/
inductive DispatchResult where
  | threw (msg : String)
  | returned (text : String)
  | projected (stdout : String)
deriving DecidableEq

/-- The exit-status check shared by almost every branch:
`if (result.code !== 0) throw new Error(result.stderr)`. -/
def checked (r : KubectlResult) (ok : DispatchResult) : DispatchResult :=
  if r.code ≠ 0 then .threw r.stderr else ok

/-- The exit-status check of the two metrics branches (source lines 1201 and
1213): an empty stderr is replaced by the fixed fallback message
(`result.stderr || "Metrics server may not be installed"`). -/
def checkedMetrics (r : KubectlResult) (ok : DispatchResult) : DispatchResult :=
  if r.code ≠ 0 then
    .threw (if r.stderr = "" then "Metrics server may not be installed" else r.stderr)
  else ok

/-- What each known branch of `handleTool` does with the `runKubectl` result
(source lines 754-1232): the exit-status check followed by the branch's
success value (raw stdout, a fixed confirmation message, a JSON projection of
stdout, a trimmed stdout, ...).  The `k8s_exec_pod` branch (lines 869-875)
performs no check and returns `stdout + stderr`; `k8s_apply_manifest` checks
and then also returns `stdout + stderr`.  The default case mirrors the
switch's `throw new Error` for unknown tools. -/
def dispatchStep (name : String) (args : ToolArgs) (ns : String)
    (r : KubectlResult) : DispatchResult :=
  match name with
  | "k8s_get_cluster_info" => checked r (.returned r.stdout)
  | "k8s_list_nodes" => checked r (.returned r.stdout)
  | "k8s_get_node" => checked r (.projected r.stdout)
  | "k8s_describe_node" => checked r (.returned r.stdout)
  | "k8s_list_namespaces" => checked r (.returned r.stdout)
  | "k8s_create_namespace" =>
      checked r (.returned ("Namespace \x27" ++ args.name ++ "\x27 created successfully"))
  | "k8s_delete_namespace" =>
      checked r (.returned ("Namespace \x27" ++ args.name ++ "\x27 deleted"))
  | "k8s_list_pods" => checked r (.returned r.stdout)
  | "k8s_get_pod" => checked r (.projected r.stdout)
  | "k8s_describe_pod" => checked r (.returned r.stdout)
  | "k8s_get_pod_logs" =>
      checked r (.returned (if r.stdout = "" then "No logs available" else r.stdout))
  | "k8s_delete_pod" =>
      checked r (.returned ("Pod \x27" ++ args.name ++ "\x27 deleted from namespace \x27"
        ++ ns ++ "\x27"))
  | "k8s_exec_pod" => .returned (r.stdout ++ r.stderr)
  | "k8s_list_deployments" => checked r (.returned r.stdout)
  | "k8s_get_deployment" => checked r (.projected r.stdout)
  | "k8s_describe_deployment" => checked r (.returned r.stdout)
  | "k8s_scale_deployment" =>
      checked r (.returned ("Deployment \x27" ++ args.name ++ "\x27 scaled to "
        ++ toString args.replicas ++ " replicas"))
  | "k8s_restart_deployment" =>
      checked r (.returned ("Deployment \x27" ++ args.name ++ "\x27 restarted"))
  | "k8s_update_deployment_image" =>
      checked r (.returned ("Deployment \x27" ++ args.name ++ "\x27 container \x27"
        ++ jstr args.container ++ "\x27 updated to image \x27" ++ args.image ++ "\x27"))
  | "k8s_list_services" => checked r (.returned r.stdout)
  | "k8s_get_service" => checked r (.projected r.stdout)
  | "k8s_describe_service" => checked r (.returned r.stdout)
  | "k8s_list_configmaps" => checked r (.returned r.stdout)
  | "k8s_get_configmap" => checked r (.projected r.stdout)
  | "k8s_create_configmap" =>
      checked r (.returned ("ConfigMap \x27" ++ args.name ++ "\x27 created in namespace \x27"
        ++ ns ++ "\x27"))
  | "k8s_delete_configmap" =>
      checked r (.returned ("ConfigMap \x27" ++ args.name
        ++ "\x27 deleted from namespace \x27" ++ ns ++ "\x27"))
  | "k8s_list_secrets" => checked r (.returned r.stdout)
  | "k8s_get_secret" => checked r (.projected r.stdout)
  | "k8s_create_secret" =>
      checked r (.returned ("Secret \x27" ++ args.name ++ "\x27 created in namespace \x27"
        ++ ns ++ "\x27"))
  | "k8s_delete_secret" =>
      checked r (.returned ("Secret \x27" ++ args.name ++ "\x27 deleted from namespace \x27"
        ++ ns ++ "\x27"))
  | "k8s_list_statefulsets" => checked r (.returned r.stdout)
  | "k8s_get_statefulset" => checked r (.projected r.stdout)
  | "k8s_scale_statefulset" =>
      checked r (.returned ("StatefulSet \x27" ++ args.name ++ "\x27 scaled to "
        ++ toString args.replicas ++ " replicas"))
  | "k8s_list_daemonsets" => checked r (.returned r.stdout)
  | "k8s_get_daemonset" => checked r (.projected r.stdout)
  | "k8s_list_ingresses" => checked r (.returned r.stdout)
  | "k8s_get_ingress" => checked r (.projected r.stdout)
  | "k8s_apply_manifest" => checked r (.returned (r.stdout ++ r.stderr))
  | "k8s_delete_resource" =>
      checked r (.returned (args.resource_type ++ " \x27" ++ args.name
        ++ "\x27 deleted from namespace \x27" ++ ns ++ "\x27"))
  | "k8s_get_events" => checked r (.returned r.stdout)
  | "k8s_get_resource_yaml" => checked r (.returned r.stdout)
  | "k8s_get_all" => checked r (.returned r.stdout)
  | "k8s_rollout_status" => checked r (.returned r.stdout)
  | "k8s_rollout_history" => checked r (.returned r.stdout)
  | "k8s_rollout_undo" => checked r (.returned r.stdout)
  | "k8s_top_nodes" => checkedMetrics r (.returned r.stdout)
  | "k8s_top_pods" => checkedMetrics r (.returned r.stdout)
  | "k8s_get_contexts" => checked r (.returned r.stdout)
  | "k8s_current_context" => checked r (.returned r.stdout.trim)
  | _ => .threw ("Unknown tool: " ++ name)

/-- The dispatcher with the namespace already resolved: build the branch's
invocation, run it through the oracle, shape the result.  The returned list
records the external-process invocations performed (empty for an unknown
tool, whose branch throws before any invocation). -/
def handleToolWithNs (name : String) (args : ToolArgs) (ns : String)
    (oracle : Invocation → KubectlResult) : DispatchResult × List Invocation :=
  match buildKubectlArgs name args ns with
  | none => (.threw ("Unknown tool: " ++ name), [])
  | some inv => (dispatchStep name args ns (oracle inv), [inv])

/-- The full `handleTool` (source lines 751-1233): resolve the namespace once
(line 752), then dispatch on the tool name. -/
def handleTool (env : Env) (name : String) (args : ToolArgs)
    (oracle : Invocation → KubectlResult) : DispatchResult × List Invocation :=
  handleToolWithNs name args (getNamespace args.namespaceArg env.K8S_DEFAULT_NAMESPACE) oracle

/-- `handleTool` with the namespace-resolution counter threaded through
`countedGetNamespace`: the count component records how many times namespace
resolution ran during the call (the source's single call site is line 752). -/
def handleToolCounted (env : Env) (name : String) (args : ToolArgs)
    (oracle : Invocation → KubectlResult) : (DispatchResult × List Invocation) × Nat :=
  let nsc := countedGetNamespace args.namespaceArg env.K8S_DEFAULT_NAMESPACE 0
  (handleToolWithNs name args nsc.1 oracle, nsc.2)

/-- The protocol response produced by the CallTool request handler (source
lines 1254-1267): a thrown error becomes a flagged response whose text is
`Error: ` followed by the error message; a returned text becomes an unflagged
response.  For a `projected` success the text is the unmodelled JSON
projection (`none` here), still unflagged. -/
structure ToolResponse where
  text : Option String
  isError : Bool
deriving DecidableEq

/-- Wrapping of a dispatch outcome into the protocol response (source lines
1256-1266). -/
def callToolResponse : DispatchResult → ToolResponse
  | .threw msg => ⟨some ("Error: " ++ msg), true⟩
  | .returned text => ⟨some text, false⟩
  | .projected _ => ⟨none, false⟩

/-- The 49 tool names advertised by the tool catalog (the `tools` array,
source lines 151-748), in catalog order. -/
def toolNames : List String :=
  ["k8s_get_cluster_info", "k8s_list_nodes", "k8s_get_node", "k8s_describe_node",
   "k8s_list_namespaces", "k8s_create_namespace", "k8s_delete_namespace",
   "k8s_list_pods", "k8s_get_pod", "k8s_describe_pod", "k8s_get_pod_logs",
   "k8s_delete_pod", "k8s_exec_pod",
   "k8s_list_deployments", "k8s_get_deployment", "k8s_describe_deployment",
   "k8s_scale_deployment", "k8s_restart_deployment", "k8s_update_deployment_image",
   "k8s_list_services", "k8s_get_service", "k8s_describe_service",
   "k8s_list_configmaps", "k8s_get_configmap", "k8s_create_configmap",
   "k8s_delete_configmap",
   "k8s_list_secrets", "k8s_get_secret", "k8s_create_secret", "k8s_delete_secret",
   "k8s_list_statefulsets", "k8s_get_statefulset", "k8s_scale_statefulset",
   "k8s_list_daemonsets", "k8s_get_daemonset",
   "k8s_list_ingresses", "k8s_get_ingress",
   "k8s_apply_manifest", "k8s_delete_resource", "k8s_get_events",
   "k8s_get_resource_yaml", "k8s_get_all",
   "k8s_rollout_status", "k8s_rollout_history", "k8s_rollout_undo",
   "k8s_top_nodes", "k8s_top_pods",
   "k8s_get_contexts", "k8s_current_context"]

/-- The case labels of the `handleTool` switch (source lines 754-1228), in
switch order. -/
def handledToolNames : List String :=
  ["k8s_get_cluster_info", "k8s_list_nodes", "k8s_get_node", "k8s_describe_node",
   "k8s_list_namespaces", "k8s_create_namespace", "k8s_delete_namespace",
   "k8s_list_pods", "k8s_get_pod", "k8s_describe_pod", "k8s_get_pod_logs",
   "k8s_delete_pod", "k8s_exec_pod",
   "k8s_list_deployments", "k8s_get_deployment", "k8s_describe_deployment",
   "k8s_scale_deployment", "k8s_restart_deployment", "k8s_update_deployment_image",
   "k8s_list_services", "k8s_get_service", "k8s_describe_service",
   "k8s_list_configmaps", "k8s_get_configmap", "k8s_create_configmap",
   "k8s_delete_configmap",
   "k8s_list_secrets", "k8s_get_secret", "k8s_create_secret", "k8s_delete_secret",
   "k8s_list_statefulsets", "k8s_get_statefulset", "k8s_scale_statefulset",
   "k8s_list_daemonsets", "k8s_get_daemonset",
   "k8s_list_ingresses", "k8s_get_ingress",
   "k8s_apply_manifest", "k8s_delete_resource", "k8s_get_events",
   "k8s_get_resource_yaml", "k8s_get_all",
   "k8s_rollout_status", "k8s_rollout_history", "k8s_rollout_undo",
   "k8s_top_nodes", "k8s_top_pods",
   "k8s_get_contexts", "k8s_current_context"]

/-- The dispatched operations that check the exit status before returning:
every handled tool except `k8s_exec_pod` (source lines 869-875, which ignores
the exit status entirely). -/
def exitCheckedToolNames : List String :=
  handledToolNames.filter (fun n => n ≠ "k8s_exec_pod")

/-- The error text thrown on a nonzero exit status: the captured stderr, with
the two metrics branches substituting a fixed fallback when stderr is
empty. -/
def expectedErrText (name : String) (r : KubectlResult) : String :=
  if name = "k8s_top_nodes" ∨ name = "k8s_top_pods" then
    (if r.stderr = "" then "Metrics server may not be installed" else r.stderr)
  else r.stderr

/-- The 6-bit value of one base64 alphabet character; `none` for characters
outside the alphabet (padding, whitespace), which the decoder skips as
Node's forgiving `Buffer.from(value, "base64")` does. -/
def base64Val (c : Char) : Option Nat :=
  if 65 ≤ c.toNat ∧ c.toNat ≤ 90 then some (c.toNat - 65)
  else if 97 ≤ c.toNat ∧ c.toNat ≤ 122 then some (c.toNat - 97 + 26)
  else if 48 ≤ c.toNat ∧ c.toNat ≤ 57 then some (c.toNat - 48 + 52)
  else if c.toNat = 43 then some 62
  else if c.toNat = 47 then some 63
  else none

/-- Reassemble bytes from the stream of 6-bit values: each full group of four
values yields three bytes; a trailing group of three yields two bytes, of two
yields one byte. -/
def base64Group : List Nat → List Nat
  | a :: b :: c :: d :: rest =>
      (a * 4 + b / 16) :: ((b % 16) * 16 + c / 4) :: ((c % 4) * 64 + d)
        :: base64Group rest
  | [a, b, c] => [a * 4 + b / 16, (b % 16) * 16 + c / 4]
  | [a, b] => [a * 4 + b / 16]
  | _ => []

/-- Base64 decoding of a string to its byte sequence, modelling
`Buffer.from(value, "base64")` (source line 1042). -/
def base64DecodeBytes (s : String) : List Nat :=
  base64Group (s.data.filterMap base64Val)

/-- A parsed secret object as the `k8s_get_secret` branch reads it from the
kubectl JSON output (source lines 1032-1037): metadata name and namespace,
the secret type, and the optional `data` mapping of keys to base64-encoded
values (`none` models an absent `data` field, over which the source
iterates as `secret.data || {}`). -/
structure Secret where
  name : String
  namespaceField : String
  type : String
  data : Option (List (String × String))
deriving DecidableEq

/-- The response object built by the `k8s_get_secret` branch (source lines
1033-1045): metadata, the list of data keys, and — only when the decode flag
is truthy and the `data` field is present — the mapping of each key to the
base64 decoding of its value (which the source then renders as UTF-8 text;
the bytes are kept here). -/
structure SecretResponse where
  name : String
  namespaceField : String
  type : String
  keys : List String
  decodedData : Option (List (String × List Nat))
deriving DecidableEq

/-- The `k8s_get_secret` response construction (source lines 1033-1045). -/
def getSecretResponse (decode : Bool) (secret : Secret) : SecretResponse :=
  { name := secret.name
    namespaceField := secret.namespaceField
    type := secret.type
    keys := (secret.data.getD []).map Prod.fst
    decodedData :=
      if decode then
        match secret.data with
        | some d => some (d.map (fun kv => (kv.1, base64DecodeBytes kv.2)))
        | none => none
      else none }

/-- A constant execution oracle (every invocation succeeds with empty
output); used to instantiate theorems at concrete inputs. -/
def constOracle : Invocation → KubectlResult := fun _ => ⟨"", "", 0⟩

/-- C8: a process spawn failure is captured as a failed result — empty
stdout, the error message as stderr, exit code 1 (nonzero) — rather than
raised; `resolveOutcome` is a total function, so the executor's promise
always resolves and never rejects. -/
theorem spawnErrorCaptured (stdout stderr msg : String) :
    resolveOutcome stdout stderr (.spawnErr msg) = ⟨"", msg, 1⟩ ∧ (1 : Int) ≠ 0 :=
  ⟨rfl, by decide⟩

/-- C7: in local mode (no remote-host configuration), the executor runs the
configured client binary directly, and the configuration-file flag and the
context-selection flag are each prepended exactly when the corresponding
configuration value is set (the kubeconfig flag is unshifted first, then the
context flag, so the context flag ends up first). -/
theorem localModeFlagPrepending (env : Env) (args : List String)
    (h : env.K8S_SSH_HOST = "") :
    buildSpawn env args =
      ⟨env.KUBECTL_PATH,
        (if env.K8S_CONTEXT = "" then [] else ["--context=" ++ env.K8S_CONTEXT])
          ++ (if env.KUBECONFIG = "" then [] else ["--kubeconfig=" ++ env.KUBECONFIG])
          ++ args⟩ := by
  unfold buildSpawn
  simp only [strTruthy, h, bne_self_eq_false, Bool.false_eq_true, if_false]
  by_cases h1 : env.KUBECONFIG = "" <;> by_cases h2 : env.K8S_CONTEXT = "" <;>
    simp [h1, h2, strTruthy]

/-- Witness for C7 at a concrete configuration with both flags set. -/
theorem localModeFlagPrependingWitness :
    buildSpawn ⟨"/tmp/kc", "prod", "default", "kubectl", "", "", "", "", false⟩
        ["get", "pods"] =
      ⟨"kubectl", ["--context=prod", "--kubeconfig=/tmp/kc", "get", "pods"]⟩ := by
  have h := localModeFlagPrepending
      ⟨"/tmp/kc", "prod", "default", "kubectl", "", "", "", "", false⟩ ["get", "pods"] rfl
  simpa using h

/-- Counterexample to C2 as stated: the argument `a"b` contains a (double)
quote, yet the remote-mode escaping leaves it unchanged when the argument
list is joined into the shell command string — only arguments containing a
space or a single quote are quoted/escaped. -/
theorem doubleQuoteArgUnescaped :
    containsChar "a\x22b" dquote = true ∧ escapeArg "a\x22b" = "a\x22b" ∧
    kubectlCmd ["a\x22b"] = "sudo kubectl a\x22b" := by decide

/-- C2 (amended): in remote mode, every argument containing a space or a
single quote is wrapped in double quotes with embedded double quotes
backslash-escaped when the list is joined; the joined string — the last
argument handed to the remote-shell client — is the elevation command `sudo`
followed by the client name `kubectl` and the escaped arguments. -/
theorem remoteArgsQuoting (env : Env) (args : List String)
    (h : env.K8S_SSH_HOST ≠ "") :
    (∀ arg, containsChar arg spaceChar = true ∨ containsChar arg squote = true →
       escapeArg arg = "\x22" ++ replaceChar arg dquote "\\\x22" ++ "\x22") ∧
    (buildSpawn env args).spawnArgs.getLast? =
      some ("sudo kubectl " ++ String.intercalate " " (args.map escapeArg)) := by
  constructor
  · intro arg hc
    unfold escapeArg
    rcases hc with hc | hc <;> simp [hc]
  · have hh : strTruthy env.K8S_SSH_HOST = true := by
      simp [strTruthy]
      exact h
    unfold buildSpawn kubectlCmd
    simp only [hh, if_true]
    by_cases hk : strTruthy env.K8S_SSH_KEY <;>
      by_cases hp : strTruthy env.K8S_SSH_PASSWORD <;>
      by_cases hw : env.isWindows <;>
      simp [hk, hp, hw, List.getLast?]

/-- Witness for C2 (amended): the argument `hello world` is quoted, and the
remote ssh invocation's final argument is the sudo-prefixed joined command. -/
theorem remoteArgsQuotingWitness :
    escapeArg "hello world" = "\x22hello world\x22" ∧
    (buildSpawn ⟨"", "", "default", "kubectl", "host", "user", "", "/id", false⟩
        ["get", "pods"]).spawnArgs.getLast? = some "sudo kubectl get pods" := by
  have h := remoteArgsQuoting
      ⟨"", "", "default", "kubectl", "host", "user", "", "/id", false⟩
      ["get", "pods"] (by decide)
  refine ⟨?_, ?_⟩
  · rw [h.1 "hello world" (Or.inl (by decide))]
    decide
  · rw [h.2]
    decide

/-- C3: the `k8s_get_secret` response contains decoded values if and only if
the decode flag is truthy and the secret's `data` field is present, and the
decoded value for every key is the base64 decoding of the original value for
that key. -/
theorem getSecretDecodeIff (decode : Bool) (secret : Secret) :
    ((getSecretResponse decode secret).decodedData.isSome ↔
        decode = true ∧ secret.data.isSome) ∧
    (∀ d, secret.data = some d → decode = true →
       (getSecretResponse decode secret).decodedData =
         some (d.map (fun kv => (kv.1, base64DecodeBytes kv.2)))) := by
  constructor
  · cases hd : secret.data <;> cases decode <;> simp [getSecretResponse, hd]
  · intro d hd hdec
    subst hdec
    simp [getSecretResponse, hd]

/-- Witness for C3: decoding the secret value `aGk=` yields the bytes of
`hi`. -/
theorem getSecretDecodeIffWitness :
    (getSecretResponse true ⟨"s", "default", "Opaque", some [("k", "aGk=")]⟩).decodedData =
      some [("k", [104, 105])] := by
  rw [(getSecretDecodeIff true ⟨"s", "default", "Opaque", some [("k", "aGk=")]⟩).2
      [("k", "aGk=")] rfl rfl]
  decide

/-- C5: when the namespace argument is omitted, `handleTool` resolves the
namespace to the configured default, every constructed argument uses that
single resolved value, and the resolution runs exactly once during the
call. -/
theorem namespaceDefaultResolvedOnce (env : Env) (name : String) (args : ToolArgs)
    (oracle : Invocation → KubectlResult) (h : args.namespaceArg = none) :
    handleToolCounted env name args oracle =
      (handleToolWithNs name args env.K8S_DEFAULT_NAMESPACE oracle, 1) := by
  unfold handleToolCounted countedGetNamespace
  simp [getNamespace, h, optTruthy, strTruthy]

/-- Witness for C5 at a concrete call with the namespace omitted. -/
theorem namespaceDefaultResolvedOnceWitness :
    handleToolCounted {} "k8s_get_all" {} constOracle =
      (handleToolWithNs "k8s_get_all" {} "default" constOracle, 1) :=
  namespaceDefaultResolvedOnce {} "k8s_get_all" {} constOracle rfl

/-- C6: for `k8s_list_pods` with a nonempty namespace `x` supplied, the
constructed argument list scopes with `-n x` when `all_namespaces` is not
set, and carries the all-namespaces flag instead of the namespace-scoping
flag when `all_namespaces` is set. -/
theorem listPodsNamespaceScoping (env : Env) (args : ToolArgs) (x : String)
    (hns : args.namespaceArg = some x) (hx : x ≠ "") :
    buildKubectlArgs "k8s_list_pods" args
        (getNamespace args.namespaceArg env.K8S_DEFAULT_NAMESPACE) =
      some ⟨["get", "pods", "-o", "wide"]
        ++ (if args.all_namespaces then ["--all-namespaces"] else ["-n", x])
        ++ labelArgs args, none⟩ := by
  have hg : getNamespace args.namespaceArg env.K8S_DEFAULT_NAMESPACE = x := by
    simp [getNamespace, hns, optTruthy, strTruthy, hx]
  rw [hg]
  rfl

/-- Witness for C6: namespace `x` supplied, `all_namespaces` absent. -/
theorem listPodsNamespaceScopingWitness :
    buildKubectlArgs "k8s_list_pods" { namespaceArg := some "x" }
        (getNamespace (some "x") "default") =
      some ⟨["get", "pods", "-o", "wide", "-n", "x"], none⟩ := by
  rw [listPodsNamespaceScoping {} { namespaceArg := some "x" } "x" rfl (by decide)]
  decide

/-- C10: the `k8s_exec_pod` branch splits the command string into process
arguments on single space characters only — each space-separated token
becomes one argument after the `--` separator, with no interpretation of
shell-style quoting. -/
theorem execPodSplitsOnSpaces (args : ToolArgs) (ns cmd : String)
    (h : args.command = cmd) :
    buildKubectlArgs "k8s_exec_pod" args ns =
      some ⟨["exec", args.name, "-n", ns]
        ++ (if optTruthy args.container then ["-c", args.container.getD ""] else [])
        ++ ["--"] ++ splitOnChar spaceChar cmd, none⟩ := by
  subst h
  rfl

/-- Witness for C10: the quoted command `echo "hello world"` is split into
three arguments, so the shell quoting is not interpreted. -/
theorem execPodSplitsOnSpacesWitness :
    buildKubectlArgs "k8s_exec_pod"
        { name := "p", command := "echo \x22hello world\x22" } "default" =
      some ⟨["exec", "p", "-n", "default", "--",
             "echo", "\x22hello", "world\x22"], none⟩ := by
  rw [execPodSplitsOnSpaces { name := "p", command := "echo \x22hello world\x22" }
      "default" "echo \x22hello world\x22" rfl]
  decide

/-- C4: a tool name outside the dispatcher's set of known cases yields the
fixed unknown-tool failure and performs no external-process invocation. -/
theorem unknownToolNoInvocation (env : Env) (name : String) (args : ToolArgs)
    (oracle : Invocation → KubectlResult) (h : name ∉ handledToolNames) :
    handleTool env name args oracle = (.threw ("Unknown tool: " ++ name), []) := by
  have hb : buildKubectlArgs name args
      (getNamespace args.namespaceArg env.K8S_DEFAULT_NAMESPACE) = none := by
    unfold buildKubectlArgs
    split <;> first
      | rfl
      | exact (h (by decide)).elim
  unfold handleTool handleToolWithNs
  rw [hb]

/-- Witness for C4 at a concrete unknown name. -/
theorem unknownToolNoInvocationWitness :
    handleTool {} "k8s_bogus" {} constOracle =
      (.threw "Unknown tool: k8s_bogus", []) := by
  rw [unknownToolNoInvocation {} "k8s_bogus" {} constOracle (by decide)]
  decide

/-- C9: every tool name advertised in the tool catalog has a handling branch
in the dispatcher — the constructed invocation exists, an external process is
invoked, and hence the unknown-tool branch (which invokes nothing) is
unreachable for catalog names. -/
theorem catalogNamesAllHandled (env : Env) (name : String) (args : ToolArgs)
    (oracle : Invocation → KubectlResult) (h : name ∈ toolNames) :
    (buildKubectlArgs name args
        (getNamespace args.namespaceArg env.K8S_DEFAULT_NAMESPACE)).isSome = true ∧
    (handleTool env name args oracle).2 ≠ [] := by
  have hs : ∀ ns, (buildKubectlArgs name args ns).isSome = true := by
    intro ns
    fin_cases h <;> rfl
  refine ⟨hs _, ?_⟩
  unfold handleTool handleToolWithNs
  rcases hb : buildKubectlArgs name args
      (getNamespace args.namespaceArg env.K8S_DEFAULT_NAMESPACE) with _ | inv
  · have hs' := hs (getNamespace args.namespaceArg env.K8S_DEFAULT_NAMESPACE)
    rw [hb] at hs'
    simp at hs'
  · simp

/-- Witness for C9 at the first catalog name. -/
theorem catalogNamesAllHandledWitness :
    (buildKubectlArgs "k8s_get_cluster_info" {}
        (getNamespace none "default")).isSome = true ∧
    (handleTool {} "k8s_get_cluster_info" {} constOracle).2 ≠ [] :=
  catalogNamesAllHandled {} "k8s_get_cluster_info" {} constOracle (by decide)

/-- Counterexample to C1 as stated: the `k8s_exec_pod` branch never checks
the exit status — at exit code 1 it returns stdout concatenated with stderr
as an unflagged (non-error) response instead of a flagged error carrying the
stderr text. -/
theorem execPodSwallowsNonzeroExit :
    (⟨"out", "err", 1⟩ : KubectlResult).code ≠ 0 ∧
    callToolResponse (dispatchStep "k8s_exec_pod" {} "default" ⟨"out", "err", 1⟩) =
      ⟨some "outerr", false⟩ := by decide

/-- C1 (amended): for every dispatched tool operation except `k8s_exec_pod`,
a nonzero exit status yields a flagged error response whose text is `Error: `
followed by the captured stderr verbatim — except that the `k8s_top_nodes`
and `k8s_top_pods` branches substitute the fixed message
`Metrics server may not be installed` when the captured stderr is empty. -/
theorem nonzeroExitFlaggedError (name : String) (args : ToolArgs) (ns : String)
    (r : KubectlResult) (h : name ∈ exitCheckedToolNames) (hc : r.code ≠ 0) :
    callToolResponse (dispatchStep name args ns r) =
      ⟨some ("Error: " ++ expectedErrText name r), true⟩ := by
  have h1 : name ∈ handledToolNames := List.mem_of_mem_filter h
  have h2 : name ≠ "k8s_exec_pod" := by
    have hp := List.of_mem_filter h
    simpa using hp
  clear h
  fin_cases h1 <;> first
    | exact absurd rfl h2
    | simp [dispatchStep, checked, checkedMetrics, callToolResponse, expectedErrText, hc]

/-- Witness for C1 (amended) at a concrete failing call. -/
theorem nonzeroExitFlaggedErrorWitness :
    callToolResponse (dispatchStep "k8s_get_pod" {} "default" ⟨"", "boom", 1⟩) =
      ⟨some "Error: boom", true⟩ := by
  rw [nonzeroExitFlaggedError "k8s_get_pod" {} "default" ⟨"", "boom", 1⟩
      (by decide) (by decide)]
  decide
